import Mathlib

/-!
Verification of the password-strength-checker core
(src/password_strength_checker.py) against its specification.

The Python source is shallowly embedded below:

* `extract` embeds the feature dictionary built at the start of
  `check_password_strength` (lines 29-34).  The Python character
  predicates `str.islower`, `str.isupper`, `str.isalnum` are modelled by
  `Char.isLower`, `Char.isUpper`, `Char.isAlphanum`, which agree with
  them on ASCII; `len` on a Python `str` counts code points, as does
  `String.length`.  The source stores `int(b)` (0 or 1); we keep the
  `Bool` the `int` is taken of.
* Classifier handles (`model.predict(X)[0]`) are modelled as functions
  `PasswordFeatures → Except String Nat`: a numeric class id on
  success, an exception message on failure.  The label decoder
  (`label_encoder.inverse_transform([n])[0]`) is modelled as
  `Nat → Except String String`.
* `check_password_strength` (lines 44-53) iterates the four named
  models in insertion order and fills the predictions dict, catching
  any exception of the predict/decode pair and recording
  `"Error: " ++ e` instead — embedded by `predictOne` / `run_ensemble`.
* `load_model_from_url` (lines 20-26) either returns the artifact or
  halts the whole script (`st.stop()`) on a non-200 response; a load is
  therefore modelled as an `Option`, and `check_password_strength_full`
  embeds lines 36-42: the encoder and the four models are all obtained
  before the prediction loop, and any failed load yields `none`.
* `create_pdf` (lines 55-71) is embedded as the list of text lines
  written to the document; the `datetime.now()` timestamp is passed in
  as the explicit parameter `now`.
* `run_app` embeds the guarded UI block `if password:` (lines 110-182):
  the short-password warning, the length-based `strength_info` banner,
  the model predictions and the PDF report, none of which are produced
  for the empty (falsy) string.
-/

/-- The feature record of the source (lines 29-34): presence of a
lowercase, an uppercase and a special (non-alphanumeric) character,
and the code-point length. -/
structure PasswordFeatures where
  hasLowercase : Bool
  hasUppercase : Bool
  hasSpecial : Bool
  length : Nat
  deriving DecidableEq, Repr

/-- Lines 29-34: the features dict of `check_password_strength`. -/
def extract (password : String) : PasswordFeatures where
  hasLowercase := password.data.any Char.isLower
  hasUppercase := password.data.any Char.isUpper
  hasSpecial := password.data.any (fun c => !c.isAlphanum)
  length := password.length

/-- A classifier handle: `model.predict(X)[0]`, which returns a numeric
class id or raises (message carried in `Except.error`). -/
def ClassifierHandle : Type := PasswordFeatures → Except String Nat

/-- The label decoder: `label_encoder.inverse_transform([n])[0]`. -/
def LabelDecoder : Type := Nat → Except String String

/-- The body of the loop of lines 46-51: try predict then decode,
record the label, and on any exception record `"Error: {e}"`. -/
def predictOne (decoder : LabelDecoder) (model : ClassifierHandle)
    (X : PasswordFeatures) : String :=
  match model X with
  | Except.ok n =>
    match decoder n with
    | Except.ok label => label
    | Except.error e => "Error: " ++ e
  | Except.error e => "Error: " ++ e

/-- Lines 44-52: the predictions dict, built by iterating the models
dict in insertion order. -/
def run_ensemble (decoder : LabelDecoder)
    (models : List (String × ClassifierHandle))
    (X : PasswordFeatures) : List (String × String) :=
  models.map (fun nm => (nm.1, predictOne decoder nm.2 X))

/-- The keys of the models dict of lines 37-42, in insertion order. -/
def classifierNames : List String :=
  ["Logistic Regression", "Random Forest", "K-Nearest Neighbors",
   "Support Vector Machine"]

/-- Lines 28-53 of the source, with the five loaded artifacts passed in
(the loading itself is `check_password_strength_full` below). -/
def check_password_strength (decoder : LabelDecoder)
    (lr rf knn svm : ClassifierHandle) (password : String) :
    List (String × String) :=
  let X := extract password
  run_ensemble decoder
    [("Logistic Regression", lr), ("Random Forest", rf),
     ("K-Nearest Neighbors", knn), ("Support Vector Machine", svm)] X

/-- Lines 28-53 including the loads of lines 36-42.  Each
`load_model_from_url` call (lines 20-26) either produces the artifact
(`some`) or halts the script via `st.stop()` on a non-200 response
(`none`); the encoder and the four models are all loaded before the
prediction loop runs. -/
def check_password_strength_full
    (encO : Option LabelDecoder) (lrO rfO knnO svmO : Option ClassifierHandle)
    (password : String) : Option (List (String × String)) := do
  let enc ← encO
  let lr ← lrO
  let rf ← rfO
  let knn ← knnO
  let svm ← svmO
  pure (check_password_strength enc lr rf knn svm password)

/-- The three-bucket strength enumeration of the length heuristic. -/
inductive StrengthBucket where
  | Weak
  | Medium
  | Strong
  deriving DecidableEq, Repr

/-- Rank order Weak < Medium < Strong. -/
def StrengthBucket.rank : StrengthBucket → Nat
  | StrengthBucket.Weak => 0
  | StrengthBucket.Medium => 1
  | StrengthBucket.Strong => 2

/-- Lines 114-120: the display tuple (name, description, color, emoji)
chosen from the password length. -/
def strength_info (length : Nat) : String × String × String × String :=
  if length ≥ 13 then ("Strong", "Strong password", "green", "🟢")
  else if length ≥ 9 then ("Medium", "Moderate password", "orange", "🟡")
  else ("Weak", "Weak password", "red", "🔴")

/-- The bucket selected by lines 114-120, as the enumeration. -/
def classify_by_length (length : Nat) : StrengthBucket :=
  if length ≥ 13 then StrengthBucket.Strong
  else if length ≥ 9 then StrengthBucket.Medium
  else StrengthBucket.Weak

/-- The display name of a bucket, tying `classify_by_length` to the
first component of the source tuple. -/
def StrengthBucket.displayName : StrengthBucket → String
  | StrengthBucket.Weak => "Weak"
  | StrengthBucket.Medium => "Medium"
  | StrengthBucket.Strong => "Strong"

/-- Lines 55-71: the text lines written into the PDF document, in
order.  `datetime.now().strftime(...)` is the parameter `now`. -/
def create_pdf (password : String) (predictions : List (String × String))
    (now : String) : List String :=
  ["Password Strength Report",
   "Password: " ++ password,
   "Timestamp: " ++ now]
  ++ predictions.map (fun pr => pr.1 ++ ": " ++ pr.2)

/-- `pre` is a prefix of the second list (character matching). -/
def charsLeadWith : List Char → List Char → Bool
  | [], _ => true
  | _ :: _, [] => false
  | a :: as, b :: bs => a == b && charsLeadWith as bs

/-- `needle` occurs somewhere in the second list as a contiguous run. -/
def charsOccur (needle : List Char) : List Char → Bool
  | [] => charsLeadWith needle []
  | b :: bs => charsLeadWith needle (b :: bs) || charsOccur needle bs

/-- `needle` occurs as a contiguous substring of `hay`. -/
def containsStr (hay needle : String) : Bool :=
  charsOccur needle.data hay.data

/-- What the guarded UI block produces for one submission. -/
structure UIOutcome where
  advisory : Bool
  bucket : Option (String × String × String × String)
  predictions : Option (List (String × String))
  report : Option (List String)
  deriving DecidableEq

/-- Lines 110-182: `if password:` guards the whole pipeline (Python
string truthiness: nonempty).  Inside, the short-password warning fires
iff `len(password) < 6`, the length banner uses `strength_info`, the
models run, and the PDF is assembled. -/
def run_app (decoder : LabelDecoder) (lr rf knn svm : ClassifierHandle)
    (password : String) (now : String) : UIOutcome :=
  if password = "" then
    { advisory := false, bucket := none, predictions := none, report := none }
  else
    let predictions := check_password_strength decoder lr rf knn svm password
    { advisory := decide (password.length < 6)
      bucket := some (strength_info password.length)
      predictions := some predictions
      report := some (create_pdf password predictions now) }

example : extract "" = ⟨false, false, false, 0⟩ := by decide
example : extract "a1!" = ⟨true, false, true, 3⟩ := by decide
example : classify_by_length 9 = StrengthBucket.Medium := by decide
example : containsStr "Password: abc" "Weak" = false := by decide
example : containsStr "x Weak y" "Weak" = true := by decide

/-- C1: for every password and every behavior of the four classifiers
and the decoder (every classifier failing included), the predictions
dict returned by `check_password_strength` has exactly four entries,
keyed by "Logistic Regression", "Random Forest", "K-Nearest Neighbors",
"Support Vector Machine", in that fixed insertion order. -/
theorem run_ensemble_fixed_keys (decoder : LabelDecoder)
    (lr rf knn svm : ClassifierHandle) (password : String) :
    (check_password_strength decoder lr rf knn svm password).map Prod.fst
      = classifierNames
    ∧ (check_password_strength decoder lr rf knn svm password).length = 4 := by
  constructor <;> rfl

/-- C2: if the classifier at position `i` fails during its predict or
decode step with description `e` while the other three predict and
decode successfully, then the other three entries hold exactly the
decoded labels they would hold in a failure-free run, and entry `i` is
the error marker `"Error: " ++ e`. -/
theorem single_failure_isolation (decoder : LabelDecoder)
    (lr rf knn svm : ClassifierHandle) (password : String)
    (i : Fin 4) (e : String) (labels : Fin 4 → String)
    (hfail : ([lr, rf, knn, svm].get i) (extract password) = Except.error e
      ∨ ∃ n, ([lr, rf, knn, svm].get i) (extract password) = Except.ok n
          ∧ decoder n = Except.error e)
    (hok : ∀ j : Fin 4, j ≠ i →
      ∃ n, ([lr, rf, knn, svm].get j) (extract password) = Except.ok n
        ∧ decoder n = Except.ok (labels j)) :
    (∀ j : Fin 4, j ≠ i →
      (check_password_strength decoder lr rf knn svm password).get? j.val
        = some (classifierNames.getD j.val "", labels j))
    ∧ (check_password_strength decoder lr rf knn svm password).get? i.val
        = some (classifierNames.getD i.val "", "Error: " ++ e) := by
  constructor
  · intro j hj
    obtain ⟨n, h1, h2⟩ := hok j hj
    fin_cases j <;>
      simp_all [check_password_strength, run_ensemble, predictOne,
        classifierNames, List.get]
  · rcases hfail with h1 | ⟨n, h1, h2⟩ <;>
      fin_cases i <;>
      simp_all [check_password_strength, run_ensemble, predictOne,
        classifierNames, List.get]

/-- A decoder for concrete runs: id 0 decodes to "Weak", others fail. -/
def wDecoder : LabelDecoder := fun n =>
  if n = 0 then Except.ok "Weak" else Except.error "unseen label id"

/-- A classifier handle that always predicts class id 0. -/
def wOk : ClassifierHandle := fun _ => Except.ok 0

/-- A classifier handle that always raises with message "boom". -/
def wBad : ClassifierHandle := fun _ => Except.error "boom"

/-- Concrete instance of `single_failure_isolation`: K-Nearest
Neighbors raises, the other three predict class 0. -/
theorem single_failure_isolation_witness :
    (check_password_strength wDecoder wOk wOk wBad wOk "abc").get? 0
        = some ("Logistic Regression", "Weak")
    ∧ (check_password_strength wDecoder wOk wOk wBad wOk "abc").get? 2
        = some ("K-Nearest Neighbors", "Error: boom") := by
  have h := single_failure_isolation wDecoder wOk wOk wBad wOk "abc"
    ⟨2, by decide⟩ "boom" (fun _ => "Weak") (Or.inl rfl)
    (by
      intro j hj
      fin_cases j
      · exact ⟨0, rfl, rfl⟩
      · exact ⟨0, rfl, rfl⟩
      · exact absurd rfl hj
      · exact ⟨0, rfl, rfl⟩)
  have h0 := h.1 ⟨0, by decide⟩ (by decide)
  have h2 := h.2
  constructor
  · simpa [classifierNames] using h0
  · simpa [classifierNames] using h2

/-- C3: `classify_by_length` is total over `Nat` and maps length ≥ 13
to Strong, 9 ≤ length ≤ 12 to Medium, length ≤ 8 to Weak; in
particular 8 ↦ Weak, 9 ↦ Medium, 12 ↦ Medium, 13 ↦ Strong. -/
theorem classify_by_length_spec : ∀ n : Nat,
    (13 ≤ n → classify_by_length n = StrengthBucket.Strong)
    ∧ (9 ≤ n ∧ n ≤ 12 → classify_by_length n = StrengthBucket.Medium)
    ∧ (n ≤ 8 → classify_by_length n = StrengthBucket.Weak)
    ∧ classify_by_length 8 = StrengthBucket.Weak
    ∧ classify_by_length 9 = StrengthBucket.Medium
    ∧ classify_by_length 12 = StrengthBucket.Medium
    ∧ classify_by_length 13 = StrengthBucket.Strong := by
  intro n
  refine ⟨?_, ?_, ?_, by decide, by decide, by decide, by decide⟩ <;>
    (intro h; unfold classify_by_length;
     split_ifs <;> first | rfl | omega)

/-- Concrete instances of `classify_by_length_spec` at 13, 10 and 3. -/
theorem classify_by_length_spec_witness :
    classify_by_length 13 = StrengthBucket.Strong
    ∧ classify_by_length 10 = StrengthBucket.Medium
    ∧ classify_by_length 3 = StrengthBucket.Weak :=
  ⟨(classify_by_length_spec 13).1 (by decide),
   (classify_by_length_spec 10).2.1 ⟨by decide, by decide⟩,
   (classify_by_length_spec 3).2.2.1 (by decide)⟩

/-- C4: `extract` is total and deterministic; each presence flag is
true iff some character of the string satisfies the corresponding
class, `length` is the code-point count, and the empty string yields
all-false flags and length 0. -/
theorem extract_spec : ∀ s : String,
    ((extract s).hasLowercase = true ↔ ∃ c ∈ s.data, c.isLower = true)
    ∧ ((extract s).hasUppercase = true ↔ ∃ c ∈ s.data, c.isUpper = true)
    ∧ ((extract s).hasSpecial = true ↔ ∃ c ∈ s.data, ¬c.isAlphanum = true)
    ∧ (extract s).length = s.length
    ∧ extract "" = ⟨false, false, false, 0⟩ := by
  intro s
  refine ⟨?_, ?_, ?_, rfl, by decide⟩ <;>
    simp [extract, List.any_eq_true]

/-- The predictions dict of a run where every classifier failed to
produce a label. -/
def cexPredictions : List (String × String) :=
  [("Logistic Regression", "Error: loading failed"),
   ("Random Forest", "Error: loading failed"),
   ("K-Nearest Neighbors", "Error: loading failed"),
   ("Support Vector Machine", "Error: loading failed")]

/-- C5 counterexample: for password "abc" the length heuristic bucket
is "Weak", yet no line of the generated document mentions it — the
document assembled by `create_pdf` does not contain the
StrengthBucket at all (the function is never given the bucket). -/
theorem create_pdf_omits_bucket_cex :
    (strength_info (String.length "abc")).1 = "Weak"
    ∧ (create_pdf "abc" cexPredictions "2024-01-01 00:00:00").all
        (fun line => !(containsStr line "Weak")) = true := by decide

/-- C5 amended: every assembled report contains the password, the
full PredictionRecord (one line per entry) and the timestamp — but
not the StrengthBucket, which `create_pdf` never receives. -/
theorem create_pdf_contents (password now : String)
    (predictions : List (String × String)) :
    ("Password: " ++ password) ∈ create_pdf password predictions now
    ∧ ("Timestamp: " ++ now) ∈ create_pdf password predictions now
    ∧ ∀ pr ∈ predictions,
        (pr.1 ++ ": " ++ pr.2) ∈ create_pdf password predictions now := by
  refine ⟨by simp [create_pdf], by simp [create_pdf], ?_⟩
  intro pr hpr
  simp only [create_pdf, List.mem_append, List.mem_map]
  exact Or.inr ⟨pr, hpr, rfl⟩

/-- Concrete instance of `create_pdf_contents`. -/
theorem create_pdf_contents_witness :
    ("Password: " ++ "abc")
        ∈ create_pdf "abc" cexPredictions "2024-01-01 00:00:00"
    ∧ ("Logistic Regression" ++ ": " ++ "Error: loading failed")
        ∈ create_pdf "abc" cexPredictions "2024-01-01 00:00:00" := by
  have h := create_pdf_contents "abc" "2024-01-01 00:00:00" cexPredictions
  exact ⟨h.1, h.2.2 ("Logistic Regression", "Error: loading failed")
    (by decide)⟩

/-- C6: the bucket of `classify_by_length` is monotone non-decreasing
in the rank order Weak < Medium < Strong. -/
theorem classify_by_length_monotone (m n : Nat) (h : m ≤ n) :
    (classify_by_length m).rank ≤ (classify_by_length n).rank := by
  unfold classify_by_length
  split_ifs <;> simp [StrengthBucket.rank] <;> omega

/-- Concrete instance of `classify_by_length_monotone`. -/
theorem classify_by_length_monotone_witness :
    (classify_by_length 5).rank ≤ (classify_by_length 10).rank :=
  classify_by_length_monotone 5 10 (by decide)

/-- C7: the runner is deterministic — it depends only on the feature
record and the pointwise behavior of the classifiers and decoder, so
two runs with identical features and identical (stateless)
classifier/decoder behavior produce identical predictions dicts. -/
theorem ensemble_deterministic
    (d d' : LabelDecoder) (lr lr' rf rf' knn knn' svm svm' : ClassifierHandle)
    (p p' : String) (hX : extract p = extract p')
    (hd : ∀ n, d n = d' n)
    (hlr : ∀ X, lr X = lr' X) (hrf : ∀ X, rf X = rf' X)
    (hknn : ∀ X, knn X = knn' X) (hsvm : ∀ X, svm X = svm' X) :
    check_password_strength d lr rf knn svm p
      = check_password_strength d' lr' rf' knn' svm' p' := by
  have h0 : d = d' := funext hd
  have h1 : lr = lr' := funext hlr
  have h2 : rf = rf' := funext hrf
  have h3 : knn = knn' := funext hknn
  have h4 : svm = svm' := funext hsvm
  subst h0; subst h1; subst h2; subst h3; subst h4
  simp [check_password_strength, hX]

/-- Concrete instance of `ensemble_deterministic`: two identical runs
agree. -/
theorem ensemble_deterministic_witness :
    check_password_strength wDecoder wOk wOk wBad wOk "abc"
      = check_password_strength wDecoder wOk wOk wBad wOk "abc" :=
  ensemble_deterministic wDecoder wDecoder wOk wOk wOk wOk wBad wBad wOk wOk
    "abc" "abc" rfl (fun _ => rfl) (fun _ => rfl) (fun _ => rfl)
    (fun _ => rfl) (fun _ => rfl)

/-- C8: for a submitted (nonempty, hence truthy) password, the
short-password advisory fires iff the length is below 6, while the
displayed bucket is the `strength_info` one in every case — the
advisory is a separate warning, not a fourth bucket. -/
theorem short_password_advisory
    (d : LabelDecoder) (lr rf knn svm : ClassifierHandle)
    (password now : String) (hp : password ≠ "") :
    ((run_app d lr rf knn svm password now).advisory = true
      ↔ password.length < 6)
    ∧ (run_app d lr rf knn svm password now).bucket
        = some (strength_info password.length) := by
  simp [run_app, hp]

/-- Concrete instance of `short_password_advisory` at password "ab". -/
theorem short_password_advisory_witness :
    (((run_app wDecoder wOk wOk wBad wOk "ab" "t").advisory = true
        ↔ String.length "ab" < 6)
      ∧ (run_app wDecoder wOk wOk wBad wOk "ab" "t").bucket
          = some (strength_info (String.length "ab"))) :=
  short_password_advisory wDecoder wOk wOk wBad wOk "ab" "t" (by decide)

/-- C9: the guarded UI block runs the pipeline only for a nonempty
password: the empty string produces no advisory, no bucket, no
predictions and no report, while any nonempty password produces all
of them. -/
theorem empty_password_gate
    (d : LabelDecoder) (lr rf knn svm : ClassifierHandle)
    (password now : String) (hp : password ≠ "") :
    run_app d lr rf knn svm "" now
      = { advisory := false, bucket := none, predictions := none,
          report := none }
    ∧ (run_app d lr rf knn svm password now).bucket
        = some (strength_info password.length)
    ∧ (run_app d lr rf knn svm password now).predictions
        = some (check_password_strength d lr rf knn svm password)
    ∧ (run_app d lr rf knn svm password now).report
        = some (create_pdf password
            (check_password_strength d lr rf knn svm password) now)
    ∧ ((run_app d lr rf knn svm password now).advisory = true
        ↔ password.length < 6) := by
  refine ⟨rfl, ?_⟩
  simp [run_app, hp]

/-- Concrete instance of `empty_password_gate` at password "abc". -/
theorem empty_password_gate_witness :
    run_app wDecoder wOk wOk wBad wOk "" "t"
      = { advisory := false, bucket := none, predictions := none,
          report := none }
    ∧ (run_app wDecoder wOk wOk wBad wOk "abc" "t").predictions
        = some (check_password_strength wDecoder wOk wOk wBad wOk "abc") := by
  have h := empty_password_gate wDecoder wOk wOk wBad wOk "abc" "t" (by decide)
  exact ⟨h.1, h.2.2.1⟩

/-- C10: model loading is not failure-isolated — if obtaining any of
the five artifacts fails (non-200 response, `st.stop()`), the whole
run aborts with no predictions dict at all; only when all five loads
succeed does the run produce the predictions of
`check_password_strength`. -/
theorem load_failure_aborts
    (encO : Option LabelDecoder) (lrO rfO knnO svmO : Option ClassifierHandle)
    (password : String)
    (h : encO = none ∨ lrO = none ∨ rfO = none ∨ knnO = none ∨ svmO = none) :
    check_password_strength_full encO lrO rfO knnO svmO password = none
    ∧ ∀ (enc : LabelDecoder) (lr rf knn svm : ClassifierHandle),
        check_password_strength_full (some enc) (some lr) (some rf)
          (some knn) (some svm) password
          = some (check_password_strength enc lr rf knn svm password) := by
  constructor
  · cases encO <;> cases lrO <;> cases rfO <;> cases knnO <;> cases svmO <;>
      simp_all [check_password_strength_full]
  · intro enc lr rf knn svm
    rfl

/-- Concrete instance of `load_failure_aborts`: the encoder load
fails, and separately a fully successful load runs the models. -/
theorem load_failure_aborts_witness :
    check_password_strength_full none (some wOk) (some wOk) (some wBad)
      (some wOk) "abc" = none
    ∧ check_password_strength_full (some wDecoder) (some wOk) (some wOk)
        (some wBad) (some wOk) "abc"
        = some (check_password_strength wDecoder wOk wOk wBad wOk "abc") := by
  have h := load_failure_aborts none (some wOk) (some wOk) (some wBad)
    (some wOk) "abc" (Or.inl rfl)
  exact ⟨h.1, h.2 wDecoder wOk wOk wBad wOk⟩
